import Mathlib

/-!
# Verification of the CampusSense threshold alerting engine

Shallow embedding of the alerting logic of the `compasense` repository:

* `src/server.js` — the in-memory hysteresis engine
  (`checkThresholdAndState`, `loadThresholdsFromDB`, `checkForAlerts`);
* `src/unnamed/part_001` — an older variant of the same server with a
  hysteresis-to-clear policy and extra input guards;
* `src/services/supabaseClient.js` — the per-user delivery pipeline
  (`processThresholdAlerts`, `isWithinTimeWindow`, `getRateCooldownMinutes`,
  `getRateCooldownMs`, `normalizeUserSettingsRow`, `safeNumber`).

JavaScript numbers are modelled by `JNum` (NaN, the two infinities, and
finite values as rationals); values read off a sensor row are modelled by
`SVal` (absent/undefined, null, or a number).  String rendering of numbers
is modelled only on the values where JS rendering agrees with the model
(integral values, exact tenths), which covers every concrete input used in
the theorems below.
-/

/-- A JavaScript number: NaN, −∞, +∞, or a finite value (as a rational). -/
inductive JNum where
  | nan
  | ninf
  | pinf
  | num (q : ℚ)
deriving DecidableEq, Repr

namespace JNum

/-- JS `<` on numbers: any comparison with NaN is false. -/
def lt : JNum → JNum → Bool
  | .nan, _ => false
  | _, .nan => false
  | .ninf, .ninf => false
  | .ninf, _ => true
  | _, .ninf => false
  | .pinf, _ => false
  | .num _, .pinf => true
  | .num a, .num b => decide (a < b)

/-- JS `<=` on numbers: any comparison with NaN is false. -/
def le : JNum → JNum → Bool
  | .nan, _ => false
  | _, .nan => false
  | .ninf, _ => true
  | _, .ninf => false
  | _, .pinf => true
  | .pinf, _ => false
  | .num a, .num b => decide (a ≤ b)

/-- JS `>`. -/
def gt (a b : JNum) : Bool := lt b a

/-- JS `>=`. -/
def ge (a b : JNum) : Bool := le b a

/-- Model of `Number.isFinite`. -/
def isFinite : JNum → Bool
  | .num _ => true
  | _ => false

end JNum

/-- A field of a sensor-data object as seen by the JS code: absent
(`undefined`), `null`, or a number (possibly NaN/±∞). -/
inductive SVal where
  | undef
  | null
  | num (v : JNum)
deriving DecidableEq, Repr

/-- JS `a ?? b` (nullish coalescing) on sensor fields. -/
def jsCoalesce : SVal → SVal → SVal
  | .undef, b => b
  | .null, b => b
  | a, _ => a

/-- Function `safeNumber` from `src/services/supabaseClient.js` (with fallback
`null`): `Number(value)` followed by a `Number.isFinite` check.
`Number(undefined)` is NaN, `Number(null)` is `0`. -/
def safeNumber : SVal → Option ℚ
  | .undef => none
  | .null => some 0
  | .num (.num q) => some q
  | .num _ => none

/-- One threshold entry of `ALERT_THRESHOLDS` in `src/server.js`:
`{ value, alert_if_above }`.  Configured limits are finite. -/
structure AlertThreshold where
  value : ℚ
  alert_if_above : Bool
deriving DecidableEq, Repr

/-- One entry of `currentAlertState` in `src/server.js`:
`{ alarming, consecutiveCount }`. -/
structure MetricState where
  alarming : Bool
  consecutiveCount : ℕ
deriving DecidableEq, Repr

/-- Constant `REQUIRED_CONSECUTIVE_READINGS` in `src/server.js` and
`src/unnamed/part_001`. -/
def REQUIRED_CONSECUTIVE_READINGS : ℕ := 2

/-- The crossing test of `checkThresholdAndState`
(`src/server.js` line 248, identical in `src/unnamed/part_001`):
`alertIfAbove ? currentValue > tVal : currentValue < tVal`. -/
def isMet (t : AlertThreshold) (v : JNum) : Bool :=
  if t.alert_if_above then JNum.gt v (.num t.value) else JNum.lt v (.num t.value)

/-- Rendering of a rational with denominator 1 the way a JS template
literal renders the corresponding integral number. -/
def q2s (q : ℚ) : String :=
  if q.den = 1 then toString q.num else toString q.num ++ "/" ++ toString q.den

/-- Rendering of a `JNum` by a JS template literal, modelled on integral
values and the special values. -/
def jn2s : JNum → String
  | .nan => "NaN"
  | .ninf => "-Infinity"
  | .pinf => "Infinity"
  | .num q => q2s q

/-- The `switch (metricName)` of `src/server.js` lines 262-280 that builds
the per-metric alert message once a metric latches; metrics outside the
switch leave the message `null`. -/
def serverAlertMsg (metricName : String) (alertIfAbove : Bool) (v : JNum) (tVal : ℚ) :
    Option String :=
  let comp := if alertIfAbove then "Above" else "Below"
  if metricName = "aqi" then
    some ("AQI WARNING: " ++ jn2s v ++ " (" ++ comp ++ " " ++ q2s tVal ++ ")")
  else if metricName = "uv" then
    some ("HIGH UV: " ++ jn2s v ++ " (" ++ comp ++ " " ++ q2s tVal ++ ")")
  else if metricName = "bmp_temp" then
    some ("HIGH TEMP: " ++ jn2s v ++ "°C (" ++ comp ++ " " ++ q2s tVal ++ ")")
  else if metricName = "pressure" then
    some ("LOW PRESSURE: " ++ jn2s v ++ " hPa (" ++ comp ++ " " ++ q2s tVal ++ ")")
  else if metricName = "rain_percentage" then
    some ("HEAVY RAIN: " ++ jn2s v ++ "% (" ++ comp ++ " " ++ q2s tVal ++ ")")
  else none

/-- The body of `checkThresholdAndState` in `src/server.js` (lines 243-288)
after its two guards have passed: given the rule, the numeric reading and
the current state of the metric, return the alert message (or `none`) and the
state as mutated by the call. -/
def checkStep (metricName : String) (t : AlertThreshold) (v : JNum) (s : MetricState) :
    Option String × MetricState :=
  if isMet t v then
    if s.alarming then (none, s)
    else
      let c := s.consecutiveCount + 1
      if REQUIRED_CONSECUTIVE_READINGS ≤ c then
        (serverAlertMsg metricName t.alert_if_above v t.value, ⟨true, 0⟩)
      else (none, ⟨false, c⟩)
  else (none, ⟨false, 0⟩)

/-- Full `checkThresholdAndState` of `src/server.js` lines 239-289 including its
guards: a missing threshold entry or a non-number value
(the `typeof` test on `currentValue`) returns `null` without touching the
state.  Note the guard does not exclude NaN, whose `typeof` is number. -/
def checkThresholdAndState (metricName : String) (tOpt : Option AlertThreshold)
    (v : SVal) (s : MetricState) : Option String × MetricState :=
  match tOpt with
  | none => (none, s)
  | some t =>
    match v with
    | .num n => checkStep metricName t n s
    | _ => (none, s)

/-- The body of the `part_001` variant of `checkThresholdAndState`
(`src/unnamed/part_001` lines 410-458) after its guards: same latch-up
logic as `src/server.js`, but clearing an alarm also requires
`REQUIRED_CONSECUTIVE_READINGS` consecutive non-crossing readings. -/
def part1CheckStep (metricName : String) (t : AlertThreshold) (v : JNum) (s : MetricState) :
    Option String × MetricState :=
  if isMet t v then
    if s.alarming then (none, s)
    else
      let c := s.consecutiveCount + 1
      if REQUIRED_CONSECUTIVE_READINGS ≤ c then
        (serverAlertMsg metricName t.alert_if_above v t.value, ⟨true, 0⟩)
      else (none, ⟨false, c⟩)
  else
    if s.alarming then
      let c := s.consecutiveCount + 1
      if REQUIRED_CONSECUTIVE_READINGS ≤ c then (none, ⟨false, 0⟩)
      else (none, ⟨true, c⟩)
    else (none, ⟨false, 0⟩)

/-- Full `checkThresholdAndState` of `src/unnamed/part_001` lines 400-459
including its guards: it additionally rejects NaN (`isNaN(currentValue)`)
and a missing state entry. -/
def part1CheckThresholdAndState (metricName : String) (tOpt : Option AlertThreshold)
    (v : SVal) (sOpt : Option MetricState) : Option String × Option MetricState :=
  match tOpt, sOpt with
  | some t, some s =>
    match v with
    | .num .nan => (none, some s)
    | .num n =>
      let r := part1CheckStep metricName t n s
      (r.1, some r.2)
    | _ => (none, some s)
  | _, _ => (none, sOpt)

/-- Whether one engine step newly latched the alarm (the "new trigger"
event of the spec): the state went from not alarming to alarming. -/
def stepTriggered (s s' : MetricState) : Bool := !s.alarming && s'.alarming

/-- Run the inner step of `checkThresholdAndState` over a list of readings,
returning the per-reading new-trigger flags and the final state. -/
def runSeq (metricName : String) (t : AlertThreshold) (s : MetricState) :
    List JNum → List Bool × MetricState
  | [] => ([], s)
  | v :: vs =>
    let r := checkStep metricName t v s
    let rest := runSeq metricName t r.2 vs
    (stepTriggered s r.2 :: rest.1, rest.2)

/-- The message part of one engine step over a list of readings. -/
def runSeqMsgs (metricName : String) (t : AlertThreshold) (s : MetricState) :
    List JNum → List (Option String)
  | [] => []
  | v :: vs =>
    let r := checkStep metricName t v s
    r.1 :: runSeqMsgs metricName t r.2 vs

example : runSeq "aqi" ⟨100, true⟩ ⟨false, 0⟩ [.num 150, .num 150] =
    ([false, true], ⟨true, 0⟩) := by decide

example : runSeq "aqi" ⟨100, true⟩ ⟨false, 0⟩ [.num 150, .num 90] =
    ([false, false], ⟨false, 0⟩) := by decide

/-! ## Time strings and the notification window (`src/services/supabaseClient.js`) -/

/-- JS `String.prototype.trim` on the whitespace characters that occur in
the settings strings of this repository. -/
def jsTrim (s : String) : String :=
  String.mk (((s.toList.dropWhile Char.isWhitespace).reverse.dropWhile
    Char.isWhitespace).reverse)

/-- Numeric value of a decimal digit character. -/
def digitVal (c : Char) : ℕ := c.toNat - '0'.toNat

/-- Test for a decimal digit in a given inclusive range. -/
def digitBetween (lo hi : ℕ) (c : Char) : Bool :=
  c.isDigit && decide (lo ≤ digitVal c) && decide (digitVal c ≤ hi)

/-- Constant `TIME_REGEX` of `src/services/supabaseClient.js`:
a full match of `([01]?[0-9]|2[0-3]):[0-5][0-9]`. -/
def timeRegexTest (s : String) : Bool :=
  match s.toList with
  | [h, ':', m1, m2] => h.isDigit && digitBetween 0 5 m1 && m2.isDigit
  | [h1, h2, ':', m1, m2] =>
    ((digitBetween 0 1 h1 && h2.isDigit) || (h1 = '2' && digitBetween 0 3 h2))
      && digitBetween 0 5 m1 && m2.isDigit
  | _ => false

/-- Function `normalizeTimeValue` of `src/services/supabaseClient.js`
lines 88-92: trim, cut to the first five characters when at least five are
present, and fall back when the result does not match `TIME_REGEX`. -/
def normalizeTimeValue (value fallback : String) : String :=
  let raw := jsTrim value
  let time := if 5 ≤ raw.length then String.mk (raw.toList.take 5) else raw
  if timeRegexTest time then time else fallback

/-- Function `hhmmToMinutes` of `src/services/supabaseClient.js` lines
94-98: normalize with fallback `00:00`, split at the colon and return
`h * 60 + m`. -/
def hhmmToMinutes (time : String) : ℕ :=
  let normalized := normalizeTimeValue time "00:00"
  match normalized.toList with
  | [h, ':', m1, m2] => digitVal h * 60 + (digitVal m1 * 10 + digitVal m2)
  | [h1, h2, ':', m1, m2] =>
    (digitVal h1 * 10 + digitVal h2) * 60 + (digitVal m1 * 10 + digitVal m2)
  | _ => 0

/-- Function `isWithinTimeWindow` of `src/services/supabaseClient.js`
lines 100-106. -/
def isWithinTimeWindow (currentTime startTime endTime : String) : Bool :=
  let now := hhmmToMinutes currentTime
  let start := hhmmToMinutes startTime
  let «end» := hhmmToMinutes endTime
  if start ≤ «end» then decide (start ≤ now) && decide (now ≤ «end»)
  else decide (start ≤ now) || decide (now ≤ «end»)

/-! ## Cooldown intervals -/

/-- Function `getRateCooldownMinutes` of `src/services/supabaseClient.js`
lines 118-131. -/
def getRateCooldownMinutes (alertRate : String) : ℚ :=
  if alertRate = "immediate" then 1
  else if alertRate = "15min" then 15
  else if alertRate = "30min" then 30
  else if alertRate = "hourly" then 60
  else 15

/-- Function `getRateCooldownMs` of `src/services/supabaseClient.js` lines
133-138: explicit minutes (when they are a finite number, modelled by
`some`) win over the rate mapping, with a floor of one minute. -/
def getRateCooldownMs (alertRate : String) (explicitMinutes : Option ℚ) : ℚ :=
  match explicitMinutes with
  | some m => max 1 m * 60 * 1000
  | none => getRateCooldownMinutes alertRate * 60 * 1000

/-! ## Settings rows and the per-user alert pipeline -/

/-- Model of a stored `notification_enabled` cell: the JS code only
distinguishes the boolean `false` from every other value. -/
inductive JBoolish where
  | jtrue
  | jfalse
  | jnull
  | jundef
  | jother
deriving DecidableEq, Repr

/-- The `notification_enabled` normalization of `normalizeUserSettingsRow`
(`src/services/supabaseClient.js` line 213): the strict comparison
`row?.notification_enabled !== false`. -/
def normalizeNotificationEnabled (v : JBoolish) : Bool := v != JBoolish.jfalse

/-- The fields of `appSettings` that `processThresholdAlerts` reads.
After `normalizeAppSettingsRow` the thresholds are finite numbers; only
`alert_rate` and `timezone` matter to the pipeline. -/
structure AppSettings where
  alert_rate : String
  timezone : String
deriving DecidableEq, Repr

/-- The output of `normalizeUserSettingsRow`
(`src/services/supabaseClient.js` lines 206-222).  All numeric fields are
finite rationals because `safeNumber` falls back to finite defaults, and
`alert_cooldown_minutes` falls back to `getRateCooldownMinutes` of the app
alert rate.  `last_alert_sent` is the parsed timestamp in milliseconds;
`none` covers a null cell and an unparseable cell, which the cooldown
check treats identically. -/
structure UserSettings where
  temp_threshold : ℚ
  humidity_threshold : ℚ
  pressure_threshold : ℚ
  notification_enabled : Bool
  notify_start_time : String
  notify_end_time : String
  alert_cooldown_minutes : ℚ
  last_alert_sent : Option ℤ
deriving DecidableEq, Repr

/-- The fields of the `sensorData` argument that `processThresholdAlerts`
reads. -/
structure SensorData where
  bmp_temp : SVal
  temperature : SVal
  humidity : SVal
  pressure : SVal
deriving DecidableEq, Repr

/-- One element of the `alerts` array built by `processThresholdAlerts`. -/
structure Alert where
  type : String
  label : String
  value : ℚ
  threshold : ℚ
deriving DecidableEq, Repr

/-- The temperature entry of the `alerts` array
(`src/services/supabaseClient.js` lines 766-773): present exactly when the
reading is finite and at least the threshold. -/
def tempAlerts (user : UserSettings) : Option ℚ → List Alert
  | some t =>
    if user.temp_threshold ≤ t then
      [⟨"temperature_high", "Temperature", t, user.temp_threshold⟩]
    else []
  | none => []

/-- The humidity entry of the `alerts` array
(`src/services/supabaseClient.js` lines 774-781). -/
def humidityAlerts (user : UserSettings) : Option ℚ → List Alert
  | some h =>
    if user.humidity_threshold ≤ h then
      [⟨"humidity_high", "Humidity", h, user.humidity_threshold⟩]
    else []
  | none => []

/-- The pressure entry of the `alerts` array
(`src/services/supabaseClient.js` lines 782-789); the threshold is finite
after normalization, so the extra finiteness test on it is always true. -/
def pressureAlerts (user : UserSettings) : Option ℚ → List Alert
  | some p =>
    if p ≤ user.pressure_threshold then
      [⟨"pressure_low", "Pressure", p, user.pressure_threshold⟩]
    else []
  | none => []

/-- The full `alerts` array of `processThresholdAlerts` lines 765-789. -/
def computeAlerts (user : UserSettings) (temperature humidity pressure : Option ℚ) :
    List Alert :=
  tempAlerts user temperature ++ humidityAlerts user humidity
    ++ pressureAlerts user pressure

/-- Model of `Number.prototype.toFixed(1)`, on the exact-tenth nonnegative
values at which it is exercised below. -/
def toFixed1 (q : ℚ) : String :=
  let m : ℤ := ⌊q * 10 + 1 / 2⌋
  toString (m / 10) ++ "." ++ toString (m % 10)

/-- One line of the alert message (`src/services/supabaseClient.js`
line 803). -/
def alertLine (a : Alert) : String :=
  a.label ++ ": " ++ toFixed1 a.value ++ " (threshold " ++ q2s a.threshold ++ ")"

/-- The combined alert message (`src/services/supabaseClient.js`
line 804). -/
def thresholdMessage (alerts : List Alert) : String :=
  "Threshold crossed - " ++ String.intercalate ", " (alerts.map alertLine)

/-- The observable outcome of one `processThresholdAlerts` call: the
returned object plus every state effect the call performs (alert-log
inserts, the web notification, and the stored `last_alert_sent`). -/
structure EvalOutcome where
  triggered : Bool
  reason : String
  message : Option String
  alerts : List Alert
  logged : List Alert
  webNotified : Bool
  lastAlertSent : Option ℤ
deriving DecidableEq, Repr

/-- Function `processThresholdAlerts` of `src/services/supabaseClient.js`
lines 746-824, as a pure function of the loaded settings, the sensor row,
the current wall-clock time rendered as HH:MM in the configured timezone
(`nowTime`), and the current epoch milliseconds (`nowMs`). -/
def processThresholdAlerts (app : AppSettings) (user : UserSettings)
    (d : SensorData) (nowTime : String) (nowMs : ℤ) : EvalOutcome :=
  if user.notification_enabled = false then
    { triggered := false, reason := "notifications-disabled", message := none,
      alerts := [], logged := [], webNotified := false,
      lastAlertSent := user.last_alert_sent }
  else if isWithinTimeWindow nowTime user.notify_start_time user.notify_end_time
      = false then
    { triggered := false, reason := "outside-notification-window", message := none,
      alerts := [], logged := [], webNotified := false,
      lastAlertSent := user.last_alert_sent }
  else
    let temperature := safeNumber (jsCoalesce d.bmp_temp d.temperature)
    let humidity := safeNumber d.humidity
    let pressure := safeNumber d.pressure
    let alerts := computeAlerts user temperature humidity pressure
    if alerts.isEmpty then
      { triggered := false, reason := "no-threshold-crossing", message := none,
        alerts := [], logged := [], webNotified := false,
        lastAlertSent := user.last_alert_sent }
    else
      let cooldownMs := getRateCooldownMs app.alert_rate
        (some user.alert_cooldown_minutes)
      let suppressed :=
        match user.last_alert_sent with
        | some lastSentTs => decide (((nowMs - lastSentTs : ℤ) : ℚ) < cooldownMs)
        | none => false
      if suppressed then
        { triggered := false, reason := "cooldown-active", message := none,
          alerts := [], logged := [], webNotified := false,
          lastAlertSent := user.last_alert_sent }
      else
        { triggered := true, reason := "threshold-crossed",
          message := some (thresholdMessage alerts), alerts := alerts,
          logged := alerts, webNotified := true, lastAlertSent := some nowMs }

/-! ## Threshold reload (`loadThresholdsFromDB`) -/

/-- The state key of a metric (`src/server.js` line 329): the rain metric
is stored under the key `rain`. -/
def stateKeyOf (m : String) : String := if m = "rain_percentage" then "rain" else m

/-- A freshly zeroed alarm-state table for a rule set: one entry
`{ alarming: false, consecutiveCount: 0 }` per metric, under its state
key. -/
def zeroedState (rules : List (String × AlertThreshold)) :
    List (String × MetricState) :=
  rules.map (fun p => (stateKeyOf p.1, ⟨false, 0⟩))

/-- Function `loadThresholdsFromDB` of `src/server.js` lines 321-333, as a
function of the fetched rows and the current global tables: a truthy fetch
replaces both tables, a null fetch leaves them untouched. -/
def loadThresholdsFromDB (tFromDB : Option (List (String × AlertThreshold)))
    (thresholds : List (String × AlertThreshold))
    (alarmState : List (String × MetricState)) :
    List (String × AlertThreshold) × List (String × MetricState) :=
  match tFromDB with
  | some t => (t, zeroedState t)
  | none => (thresholds, alarmState)

/-- Function `loadThresholdsFromDB` of `src/unnamed/part_001` lines
536-551: a fetch that is null or empty clears both tables instead. -/
def part1LoadThresholdsFromDB (tFromDB : Option (List (String × AlertThreshold)))
    (thresholds : List (String × AlertThreshold))
    (alarmState : List (String × MetricState)) :
    List (String × AlertThreshold) × List (String × MetricState) :=
  match tFromDB with
  | some t => if 0 < t.length then (t, zeroedState t) else ([], [])
  | none => ([], [])

/-! ## Spec-side predicate and concrete fixtures -/

/-- The crossing predicate exactly as the specification words it
(section 4.1): `crossed = direction == above ? value >= limit : value <= limit`,
so a boundary value equal to the limit counts as crossed.  Kept separate
from `isMet` so the two can be compared. -/
def specCrossed (alertIfAbove : Bool) (limit v : ℚ) : Bool :=
  if alertIfAbove then decide (limit ≤ v) else decide (v ≤ limit)

/-- App settings with the default alert rate. -/
def exampleApp : AppSettings := ⟨"immediate", "Asia/Kolkata"⟩

/-- App settings with the hourly alert rate. -/
def appHourly : AppSettings := ⟨"hourly", "Asia/Kolkata"⟩

/-- A sensor row with every field absent. -/
def emptyData : SensorData := ⟨.undef, .undef, .undef, .undef⟩

/-- A sensor row with only a temperature of 30. -/
def dataTemp30 : SensorData := ⟨.num (.num 30), .undef, .undef, .undef⟩

/-- User settings whose notification window is 10:00 to 11:00. -/
def userOutside : UserSettings := ⟨28, 80, 990, true, "10:00", "11:00", 15, none⟩

/-- User settings with the overnight window 22:00 to 06:00. -/
def userOvernight : UserSettings := ⟨28, 80, 990, true, "22:00", "06:00", 15, none⟩

/-- User settings under the hourly rate that kept the stored default of 15
cooldown minutes, with a last alert at epoch millisecond 0. -/
def userHourlyStale : UserSettings := ⟨28, 80, 990, true, "00:00", "23:59", 15, some 0⟩

/-- User settings with 60 cooldown minutes (the value
`setNotificationSettings` stores for the hourly rate) and no alert sent
yet. -/
def userHourly60 : UserSettings := ⟨28, 80, 990, true, "00:00", "23:59", 60, none⟩

/-- Same as `userHourly60` after an alert was delivered at epoch
millisecond 0. -/
def userHourly60Sent0 : UserSettings := ⟨28, 80, 990, true, "00:00", "23:59", 60, some 0⟩

/-- User settings with notifications disabled. -/
def userDisabled : UserSettings := ⟨28, 80, 990, false, "00:00", "23:59", 15, some 42⟩

/-- Property access on an alarm-state table (the JS object read
`currentAlertState[stateKey]`). -/
def lookupKey (k : String) : List (String × MetricState) → Option MetricState
  | [] => none
  | (k', s) :: rest => if k = k' then some s else lookupKey k rest

/-! ## Helper lemmas -/

/-- Every suppressed outcome of `processThresholdAlerts` performs no state
effect: nothing is logged, no notification is written, and the stored
`last_alert_sent` is returned unchanged. -/
theorem processThresholdAlerts_suppressed_no_mutation
    (app : AppSettings) (user : UserSettings) (d : SensorData)
    (nowTime : String) (nowMs : ℤ) :
    (processThresholdAlerts app user d nowTime nowMs).triggered = false →
      (processThresholdAlerts app user d nowTime nowMs).lastAlertSent
          = user.last_alert_sent ∧
      (processThresholdAlerts app user d nowTime nowMs).logged = [] ∧
      (processThresholdAlerts app user d nowTime nowMs).webNotified = false ∧
      (processThresholdAlerts app user d nowTime nowMs).message = none := by
  intro h
  simp only [processThresholdAlerts] at h ⊢
  split_ifs at h ⊢ <;> simp_all

/-- Every delivered outcome of `processThresholdAlerts` returns the joined
message over its alerts, logs exactly those alerts, writes the web
notification, and stores `nowMs` as the new `last_alert_sent`. -/
theorem processThresholdAlerts_triggered_shape
    (app : AppSettings) (user : UserSettings) (d : SensorData)
    (nowTime : String) (nowMs : ℤ) :
    (processThresholdAlerts app user d nowTime nowMs).triggered = true →
      (processThresholdAlerts app user d nowTime nowMs).message
          = some (thresholdMessage
              (processThresholdAlerts app user d nowTime nowMs).alerts) ∧
      (processThresholdAlerts app user d nowTime nowMs).logged
          = (processThresholdAlerts app user d nowTime nowMs).alerts ∧
      (processThresholdAlerts app user d nowTime nowMs).webNotified = true ∧
      (processThresholdAlerts app user d nowTime nowMs).lastAlertSent
          = some nowMs := by
  intro h
  simp only [processThresholdAlerts] at h ⊢
  split_ifs at h ⊢ <;> simp_all


/-! ## Claims -/

/-- C1: in `checkThresholdAndState`, starting from a non-alarming state, a
crossing reading increments the consecutive counter and produces a new
trigger exactly when it reaches `REQUIRED_CONSECUTIVE_READINGS` (2), at
which point the alarm latches and the counter resets to 0; a crossing
reading while already alarming produces no trigger and leaves the state
untouched.  Feeding `[150, 150]` against rule above-100 triggers only on
the second reading; `[150, 90]` never triggers. -/
theorem C1_hysteresis_new_trigger_at_confirmation :
    (∀ (name : String) (t : AlertThreshold) (v : JNum) (s : MetricState),
      isMet t v = true → s.alarming = false →
        (REQUIRED_CONSECUTIVE_READINGS ≤ s.consecutiveCount + 1 →
          checkStep name t v s =
            (serverAlertMsg name t.alert_if_above v t.value, ⟨true, 0⟩)) ∧
        (s.consecutiveCount + 1 < REQUIRED_CONSECUTIVE_READINGS →
          checkStep name t v s = (none, ⟨false, s.consecutiveCount + 1⟩))) ∧
    (∀ (name : String) (t : AlertThreshold) (v : JNum) (s : MetricState),
      isMet t v = true → s.alarming = true → checkStep name t v s = (none, s)) ∧
    runSeq "aqi" ⟨100, true⟩ ⟨false, 0⟩ [.num 150, .num 150]
        = ([false, true], ⟨true, 0⟩) ∧
    runSeq "aqi" ⟨100, true⟩ ⟨false, 0⟩ [.num 150, .num 90]
        = ([false, false], ⟨false, 0⟩) ∧
    runSeq "aqi" ⟨100, true⟩ ⟨false, 0⟩ [.num 150, .num 90, .num 150, .num 150]
        = ([false, false, false, true], ⟨true, 0⟩) := by
  refine ⟨?_, ?_, by decide, by decide, by decide⟩
  · intro name t v s hm ha
    constructor
    · intro hc
      simp [checkStep, hm, ha, hc]
    · intro hc
      have hnc : ¬ (REQUIRED_CONSECUTIVE_READINGS ≤ s.consecutiveCount + 1) := by
        omega
      simp [checkStep, hm, ha, hnc]
  · intro name t v s hm ha
    simp [checkStep, hm, ha]

/-- C1 witness: a second consecutive crossing reading latches the alarm
and emits the alert message. -/
theorem C1_witness :
    checkStep "aqi" ⟨100, true⟩ (.num 150) ⟨false, 1⟩
      = (serverAlertMsg "aqi" true (.num 150) 100, ⟨true, 0⟩) :=
  (C1_hysteresis_new_trigger_at_confirmation.1 "aqi" ⟨100, true⟩ (.num 150)
    ⟨false, 1⟩ (by decide) rfl).1 (by decide)

/-- C2 counterexample: a reading exactly equal to the limit is crossed
according to the specification predicate but not according to the engine
of `src/server.js`, whose comparison is strict. -/
theorem C2_counterexample :
    specCrossed true 100 100 = true ∧ isMet ⟨100, true⟩ (.num 100) = false := by
  decide

/-- C2 amended: the crossing test of `checkThresholdAndState` is strict
(`value > limit` for direction above, `value < limit` for below, so a
boundary value does not cross), while the per-metric comparisons of
`processThresholdAlerts` are non-strict (`>=` for temperature and
humidity, `<=` for pressure, so a boundary value does cross there). -/
theorem C2_strict_engine_nonstrict_pipeline :
    (∀ (limit v : ℚ), isMet ⟨limit, true⟩ (.num v) = decide (limit < v)) ∧
    (∀ (limit v : ℚ), isMet ⟨limit, false⟩ (.num v) = decide (v < limit)) ∧
    (∀ (user : UserSettings) (t : ℚ),
      tempAlerts user (some t) ≠ [] ↔ user.temp_threshold ≤ t) ∧
    (∀ (user : UserSettings) (h : ℚ),
      humidityAlerts user (some h) ≠ [] ↔ user.humidity_threshold ≤ h) ∧
    (∀ (user : UserSettings) (p : ℚ),
      pressureAlerts user (some p) ≠ [] ↔ p ≤ user.pressure_threshold) := by
  refine ⟨fun limit v => rfl, fun limit v => rfl, ?_, ?_, ?_⟩
  · intro user t
    by_cases h : user.temp_threshold ≤ t <;> simp [tempAlerts, h]
  · intro user h
    by_cases hh : user.humidity_threshold ≤ h <;> simp [humidityAlerts, hh]
  · intro user p
    by_cases hp : p ≤ user.pressure_threshold <;> simp [pressureAlerts, hp]

/-- C2 witness: at the boundary, the engine does not cross while the
pipeline does. -/
theorem C2_witness :
    isMet ⟨100, true⟩ (.num 100) = decide ((100 : ℚ) < 100) ∧
    tempAlerts ⟨28, 80, 990, true, "00:00", "23:59", 15, none⟩ (some 28) ≠ [] :=
  ⟨C2_strict_engine_nonstrict_pipeline.1 100 100,
    (C2_strict_engine_nonstrict_pipeline.2.2.1
      ⟨28, 80, 990, true, "00:00", "23:59", 15, none⟩ 28).mpr (by decide)⟩

/-- C3 counterexample: in the `part_001` variant, a metric that is
alarming with counter 0 stays alarming after a single non-crossing
reading (100 is not above 450), contradicting the claimed immediate
clear. -/
theorem C3_counterexample :
    (part1CheckThresholdAndState "aqi" (some ⟨450, true⟩) (.num (.num 100))
        (some ⟨true, 0⟩)).2 = some ⟨true, 1⟩ ∧
    (⟨true, 1⟩ : MetricState).alarming ≠ false := by
  decide

/-- C3 amended: in `src/server.js` a single non-crossing reading clears
the alarm and resets the counter immediately; in the `part_001` variant a
non-crossing reading while alarming only increments the counter, and the
alarm clears once `REQUIRED_CONSECUTIVE_READINGS` (2) consecutive
non-crossing readings have arrived. -/
theorem C3_immediate_clear_only_in_server :
    (∀ (name : String) (t : AlertThreshold) (v : JNum) (s : MetricState),
      isMet t v = false → checkStep name t v s = (none, ⟨false, 0⟩)) ∧
    (∀ (name : String) (t : AlertThreshold) (v : JNum) (s : MetricState),
      isMet t v = false → s.alarming = true →
        part1CheckStep name t v s =
          (none, if REQUIRED_CONSECUTIVE_READINGS ≤ s.consecutiveCount + 1
            then ⟨false, 0⟩ else ⟨true, s.consecutiveCount + 1⟩)) ∧
    (∀ (name : String) (t : AlertThreshold) (v v' : JNum),
      isMet t v = false → isMet t v' = false →
        (part1CheckStep name t v' (part1CheckStep name t v ⟨true, 0⟩).2).2
          = ⟨false, 0⟩) := by
  refine ⟨?_, ?_, ?_⟩
  · intro name t v s hm
    simp [checkStep, hm]
  · intro name t v s hm ha
    simp only [part1CheckStep, hm, ha]
    split_ifs <;> simp_all
  · intro name t v v' hm hm'
    simp [part1CheckStep, hm, hm', REQUIRED_CONSECUTIVE_READINGS]

/-- C3 witness: a single non-crossing reading clears a latched alarm in
the server engine, and two consecutive non-crossing readings clear it in
the `part_001` variant. -/
theorem C3_witness :
    checkStep "aqi" ⟨450, true⟩ (.num 100) ⟨true, 0⟩ = (none, ⟨false, 0⟩) ∧
    (part1CheckStep "aqi" ⟨450, true⟩ (.num 100)
      (part1CheckStep "aqi" ⟨450, true⟩ (.num 100) ⟨true, 0⟩).2).2 = ⟨false, 0⟩ :=
  ⟨C3_immediate_clear_only_in_server.1 "aqi" ⟨450, true⟩ (.num 100) ⟨true, 0⟩
      (by decide),
    C3_immediate_clear_only_in_server.2.2 "aqi" ⟨450, true⟩ (.num 100) (.num 100)
      (by decide) (by decide)⟩

/-- C4 counterexample: in `src/server.js` a NaN reading passes the
`typeof` guard, counts as non-crossing, and clears a latched alarm state
instead of leaving it unchanged. -/
theorem C4_counterexample :
    (checkThresholdAndState "aqi" (some ⟨450, true⟩) (.num .nan) ⟨true, 2⟩).2
        = ⟨false, 0⟩ ∧
    (⟨false, 0⟩ : MetricState) ≠ ⟨true, 2⟩ := by
  decide

/-- C4 amended: a metric with no configured rule, or whose value is absent
or not of number type, is skipped and mutates nothing in both engine
variants, and the `part_001` variant also skips NaN values and missing
state entries; but in `src/server.js` a NaN value is evaluated as an
ordinary non-crossing reading and resets the state to not-alarming with
counter 0. -/
theorem C4_skip_guards :
    (∀ (name : String) (v : SVal) (s : MetricState),
      checkThresholdAndState name none v s = (none, s)) ∧
    (∀ (name : String) (t : AlertThreshold) (s : MetricState),
      checkThresholdAndState name (some t) .undef s = (none, s)) ∧
    (∀ (name : String) (t : AlertThreshold) (s : MetricState),
      checkThresholdAndState name (some t) .null s = (none, s)) ∧
    (∀ (name : String) (t : AlertThreshold) (s : MetricState),
      checkThresholdAndState name (some t) (.num .nan) s = (none, ⟨false, 0⟩)) ∧
    (∀ (name : String) (v : SVal) (sOpt : Option MetricState),
      part1CheckThresholdAndState name none v sOpt = (none, sOpt)) ∧
    (∀ (name : String) (t : AlertThreshold) (v : SVal),
      part1CheckThresholdAndState name (some t) v none = (none, none)) ∧
    (∀ (name : String) (t : AlertThreshold) (s : MetricState),
      part1CheckThresholdAndState name (some t) (.num .nan) (some s)
        = (none, some s)) ∧
    (∀ (name : String) (t : AlertThreshold) (s : MetricState),
      part1CheckThresholdAndState name (some t) .undef (some s) = (none, some s)) ∧
    (∀ (name : String) (t : AlertThreshold) (s : MetricState),
      part1CheckThresholdAndState name (some t) .null (some s) = (none, some s)) := by
  refine ⟨?_, ?_, ?_, ?_, ?_, ?_, ?_, ?_, ?_⟩
  · intro name v s; rfl
  · intro name t s; rfl
  · intro name t s; rfl
  · intro name t s
    have hm : isMet t .nan = false := by
      simp [isMet, JNum.gt, JNum.lt]
    simp [checkThresholdAndState, checkStep, hm]
  · intro name v sOpt; cases sOpt <;> rfl
  · intro name t v; cases v <;> rfl
  · intro name t s; rfl
  · intro name t s; rfl
  · intro name t s; rfl

/-- C5 counterexample: a call with no crossing metric made outside the
notification window is suppressed with reason
outside-notification-window, not no-threshold-crossing, because
`processThresholdAlerts` checks the window before the crossings. -/
theorem C5_counterexample :
    (processThresholdAlerts exampleApp userOutside emptyData "12:00" 0).reason
        = "outside-notification-window" ∧
    (processThresholdAlerts exampleApp userOutside emptyData "12:00" 0).reason
        ≠ "no-threshold-crossing" := by
  constructor <;> decide

/-- C5 amended: when notifications are enabled and the current time is
inside the notification window, a call in which no metric crosses returns
Suppressed with reason no-threshold-crossing and performs no state
mutation; the enabled and window gates fire first, and every suppressed
outcome (whatever its reason) leaves `last_alert_sent` untouched and logs
and notifies nothing. -/
theorem C5_no_crossing_suppressed :
    (∀ (app : AppSettings) (user : UserSettings) (d : SensorData)
        (nowTime : String) (nowMs : ℤ),
      user.notification_enabled = true →
      isWithinTimeWindow nowTime user.notify_start_time user.notify_end_time
          = true →
      computeAlerts user (safeNumber (jsCoalesce d.bmp_temp d.temperature))
          (safeNumber d.humidity) (safeNumber d.pressure) = [] →
      processThresholdAlerts app user d nowTime nowMs =
        { triggered := false, reason := "no-threshold-crossing", message := none,
          alerts := [], logged := [], webNotified := false,
          lastAlertSent := user.last_alert_sent }) ∧
    (∀ (app : AppSettings) (user : UserSettings) (d : SensorData)
        (nowTime : String) (nowMs : ℤ),
      (processThresholdAlerts app user d nowTime nowMs).triggered = false →
        (processThresholdAlerts app user d nowTime nowMs).lastAlertSent
            = user.last_alert_sent ∧
        (processThresholdAlerts app user d nowTime nowMs).logged = [] ∧
        (processThresholdAlerts app user d nowTime nowMs).webNotified = false) := by
  constructor
  · intro app user d nowTime nowMs h1 h2 h3
    simp [processThresholdAlerts, h1, h2, h3]
  · intro app user d nowTime nowMs h
    exact ⟨(processThresholdAlerts_suppressed_no_mutation app user d nowTime
        nowMs h).1,
      (processThresholdAlerts_suppressed_no_mutation app user d nowTime
        nowMs h).2.1,
      (processThresholdAlerts_suppressed_no_mutation app user d nowTime
        nowMs h).2.2.1⟩

/-- C5 witness: an all-absent reading inside an always-open window is
suppressed as no-threshold-crossing without mutation. -/
theorem C5_witness :
    processThresholdAlerts appHourly userHourly60 emptyData "10:00" 0 =
      { triggered := false, reason := "no-threshold-crossing", message := none,
        alerts := [], logged := [], webNotified := false,
        lastAlertSent := userHourly60.last_alert_sent } :=
  C5_no_crossing_suppressed.1 appHourly userHourly60 emptyData "10:00" 0
    (by decide) (by decide) (by decide)

/-- C6: `isWithinTimeWindow` is wrap-aware containment on the parsed
minute values (normal range when start is at most end, overnight range
straddling midnight otherwise); in the overnight window 22:00 to 06:00 a
time of 05:00 passes and 12:00 does not, and a crossing reading evaluated
outside the window is suppressed with reason
outside-notification-window while the same reading at 05:00 is
delivered. -/
theorem C6_window_gate :
    (∀ c s e : String, isWithinTimeWindow c s e =
      if hhmmToMinutes s ≤ hhmmToMinutes e then
        decide (hhmmToMinutes s ≤ hhmmToMinutes c)
          && decide (hhmmToMinutes c ≤ hhmmToMinutes e)
      else
        decide (hhmmToMinutes s ≤ hhmmToMinutes c)
          || decide (hhmmToMinutes c ≤ hhmmToMinutes e)) ∧
    isWithinTimeWindow "05:00" "22:00" "06:00" = true ∧
    isWithinTimeWindow "12:00" "22:00" "06:00" = false ∧
    (∀ (app : AppSettings) (user : UserSettings) (d : SensorData)
        (nowTime : String) (nowMs : ℤ),
      user.notification_enabled = true →
      isWithinTimeWindow nowTime user.notify_start_time user.notify_end_time
          = false →
      processThresholdAlerts app user d nowTime nowMs =
        { triggered := false, reason := "outside-notification-window",
          message := none, alerts := [], logged := [], webNotified := false,
          lastAlertSent := user.last_alert_sent }) ∧
    (processThresholdAlerts exampleApp userOvernight dataTemp30 "12:00" 0).reason
        = "outside-notification-window" ∧
    (processThresholdAlerts exampleApp userOvernight dataTemp30 "05:00" 0).triggered
        = true := by
  refine ⟨fun c s e => rfl, by decide, by decide, ?_, by decide, by decide⟩
  intro app user d nowTime nowMs h1 h2
  simp [processThresholdAlerts, h1, h2]

/-- C6 witness: at 12:00 the overnight window gate suppresses a crossing
reading. -/
theorem C6_witness :
    processThresholdAlerts exampleApp userOvernight dataTemp30 "12:00" 0 =
      { triggered := false, reason := "outside-notification-window",
        message := none, alerts := [], logged := [], webNotified := false,
        lastAlertSent := userOvernight.last_alert_sent } :=
  C6_window_gate.2.2.2.1 exampleApp userOvernight dataTemp30 "12:00" 0
    (by decide) (by decide)

/-- C7 counterexample: with alert rate hourly but a stored
`alert_cooldown_minutes` of 15 (the database default), a crossing reading
20 minutes after the last alert is delivered, while the claimed
rate-determined interval of 3600 seconds would suppress it as
cooldown-active. -/
theorem C7_counterexample :
    (processThresholdAlerts appHourly userHourlyStale dataTemp30 "10:00"
        1200000).triggered = true ∧
    (processThresholdAlerts appHourly userHourlyStale dataTemp30 "10:00"
        1200000).reason ≠ "cooldown-active" ∧
    appHourly.alert_rate = "hourly" ∧
    ((1200000 : ℚ) < getRateCooldownMinutes "hourly" * 60 * 1000) := by
  have hwin : isWithinTimeWindow "10:00" "00:00" "23:59" = true := by decide
  have h60 : getRateCooldownMinutes "hourly" = (60 : ℚ) := rfl
  refine ⟨?_, ?_, rfl, by rw [h60]; norm_num⟩ <;>
    norm_num [processThresholdAlerts, appHourly, userHourlyStale, dataTemp30,
      computeAlerts, tempAlerts, humidityAlerts, pressureAlerts, safeNumber,
      jsCoalesce, getRateCooldownMs, hwin] <;>
    decide

/-- C7 amended: the interval actually used by `processThresholdAlerts` is
`max 1 alert_cooldown_minutes` minutes, since after normalization
`alert_cooldown_minutes` is always finite; the rate mapping
(immediate to 1 minute as a 60-second floor, 15min to 15, 30min to 30,
hourly to 60 minutes) is the fallback used when no explicit minutes are
available and the default stored by the settings writer.  A set
`last_alert_sent` within the interval suppresses with cooldown-active and
no mutation; otherwise the trigger is delivered and `last_alert_sent`
becomes now.  With 60 cooldown minutes (the stored value for rate hourly)
two crossings 10 minutes apart yield Triggered then
Suppressed cooldown-active, and 61 minutes apart both yield Triggered. -/
theorem C7_cooldown_gate :
    getRateCooldownMinutes "immediate" = 1 ∧
    getRateCooldownMinutes "15min" = 15 ∧
    getRateCooldownMinutes "30min" = 30 ∧
    getRateCooldownMinutes "hourly" = 60 ∧
    (∀ (rate : String) (m : ℚ),
      getRateCooldownMs rate (some m) = max 1 m * 60 * 1000) ∧
    (∀ rate : String, getRateCooldownMs rate none
        = getRateCooldownMinutes rate * 60 * 1000) ∧
    (∀ (app : AppSettings) (user : UserSettings) (d : SensorData)
        (nowTime : String) (nowMs lastSentTs : ℤ),
      user.notification_enabled = true →
      isWithinTimeWindow nowTime user.notify_start_time user.notify_end_time
          = true →
      computeAlerts user (safeNumber (jsCoalesce d.bmp_temp d.temperature))
          (safeNumber d.humidity) (safeNumber d.pressure) ≠ [] →
      user.last_alert_sent = some lastSentTs →
        (((nowMs - lastSentTs : ℤ) : ℚ)
            < getRateCooldownMs app.alert_rate (some user.alert_cooldown_minutes) →
          processThresholdAlerts app user d nowTime nowMs =
            { triggered := false, reason := "cooldown-active", message := none,
              alerts := [], logged := [], webNotified := false,
              lastAlertSent := user.last_alert_sent }) ∧
        (¬ (((nowMs - lastSentTs : ℤ) : ℚ)
            < getRateCooldownMs app.alert_rate (some user.alert_cooldown_minutes)) →
          (processThresholdAlerts app user d nowTime nowMs).triggered = true ∧
          (processThresholdAlerts app user d nowTime nowMs).reason
              = "threshold-crossed" ∧
          (processThresholdAlerts app user d nowTime nowMs).lastAlertSent
              = some nowMs)) ∧
    (processThresholdAlerts appHourly userHourly60 dataTemp30 "10:00" 0).triggered
        = true ∧
    (processThresholdAlerts appHourly userHourly60 dataTemp30 "10:00" 0).lastAlertSent
        = some 0 ∧
    (processThresholdAlerts appHourly userHourly60Sent0 dataTemp30 "10:10"
        600000).reason = "cooldown-active" ∧
    (processThresholdAlerts appHourly userHourly60Sent0 dataTemp30 "11:01"
        3660000).triggered = true := by
  have hw1 : isWithinTimeWindow "10:00" "00:00" "23:59" = true := by decide
  have hw2 : isWithinTimeWindow "10:10" "00:00" "23:59" = true := by decide
  have hw3 : isWithinTimeWindow "11:01" "00:00" "23:59" = true := by decide
  refine ⟨rfl, rfl, rfl, rfl, fun rate m => rfl, fun rate => rfl, ?_, ?_, ?_, ?_, ?_⟩
  · intro app user d nowTime nowMs lastSentTs h1 h2 h3 h4
    constructor
    · intro hlt
      push_cast at hlt
      simp [processThresholdAlerts, h1, h2, h3, h4, hlt]
    · intro hge
      push_cast at hge
      simp [processThresholdAlerts, h1, h2, h3, h4, hge]
  all_goals
    norm_num [processThresholdAlerts, appHourly, userHourly60, userHourly60Sent0,
      dataTemp30, computeAlerts, tempAlerts, humidityAlerts, pressureAlerts,
      safeNumber, jsCoalesce, getRateCooldownMs, hw1, hw2, hw3]

/-- C7 witness: with 60 cooldown minutes and a last alert 10 minutes ago,
a crossing reading is suppressed as cooldown-active. -/
theorem C7_witness :
    processThresholdAlerts appHourly userHourly60Sent0 dataTemp30 "10:10" 600000 =
      { triggered := false, reason := "cooldown-active", message := none,
        alerts := [], logged := [], webNotified := false,
        lastAlertSent := userHourly60Sent0.last_alert_sent } :=
  (C7_cooldown_gate.2.2.2.2.2.2.1 appHourly userHourly60Sent0 dataTemp30 "10:10"
    600000 0 (by decide) (by decide) (by decide) rfl).1
    (by norm_num [getRateCooldownMs, appHourly, userHourly60Sent0])

/-- C8: a successful threshold reload replaces the whole alarm-state
table with freshly zeroed entries, one per metric of the new rule set
under its state key, independently of the previous thresholds and states;
any key outside the new set (for example a removed or renamed metric) has
no entry afterwards.  The `part_001` variant does the same and clears
both tables on a null or empty fetch. -/
theorem C8_reload_resets_state :
    (∀ (rules thresholds : List (String × AlertThreshold))
        (alarmState : List (String × MetricState)),
      loadThresholdsFromDB (some rules) thresholds alarmState
        = (rules, zeroedState rules)) ∧
    (∀ (rules : List (String × AlertThreshold)),
      ∀ p ∈ zeroedState rules, p.2 = (⟨false, 0⟩ : MetricState)) ∧
    (∀ (rules : List (String × AlertThreshold)),
      (zeroedState rules).map Prod.fst = rules.map (fun r => stateKeyOf r.1)) ∧
    (∀ (rules : List (String × AlertThreshold)) (k : String),
      k ∉ rules.map (fun r => stateKeyOf r.1) →
        lookupKey k (zeroedState rules) = none) ∧
    (∀ (rules thresholds : List (String × AlertThreshold))
        (alarmState : List (String × MetricState)),
      0 < rules.length →
        part1LoadThresholdsFromDB (some rules) thresholds alarmState
          = (rules, zeroedState rules)) ∧
    (∀ (thresholds : List (String × AlertThreshold))
        (alarmState : List (String × MetricState)),
      part1LoadThresholdsFromDB (some []) thresholds alarmState = ([], [])) ∧
    (∀ (thresholds : List (String × AlertThreshold))
        (alarmState : List (String × MetricState)),
      part1LoadThresholdsFromDB none thresholds alarmState = ([], [])) := by
  refine ⟨fun rules th st => rfl, ?_, ?_, ?_, ?_, fun th st => rfl,
    fun th st => rfl⟩
  · intro rules p hp
    simp only [zeroedState, List.mem_map] at hp
    obtain ⟨r, _, rfl⟩ := hp
    rfl
  · intro rules
    simp [zeroedState]
  · intro rules k hk
    induction rules with
    | nil => rfl
    | cons r rs ih =>
      simp only [List.map_cons, List.mem_cons, not_or] at hk
      simp only [zeroedState, List.map_cons, lookupKey, if_neg hk.1]
      exact ih hk.2
  · intro rules th st h
    simp only [part1LoadThresholdsFromDB, if_pos h]

/-- C8 witness: after reloading with the rain metric renamed, the lookup
of the old state key finds nothing, and a non-empty reload in the
`part_001` variant also installs the zeroed table. -/
theorem C8_witness :
    lookupKey "rain_percentage"
        (zeroedState [("rain_percentage", ⟨70, true⟩)]) = none ∧
    part1LoadThresholdsFromDB (some [("aqi", ⟨450, true⟩)]) []
        [("uv", ⟨true, 5⟩)] = ([("aqi", ⟨450, true⟩)],
          zeroedState [("aqi", ⟨450, true⟩)]) :=
  ⟨C8_reload_resets_state.2.2.2.1 [("rain_percentage", ⟨70, true⟩)]
      "rain_percentage" (by decide),
    C8_reload_resets_state.2.2.2.2.1 [("aqi", ⟨450, true⟩)] []
      [("uv", ⟨true, 5⟩)] (by decide)⟩

/-- C9 counterexample: the alert text the server engine renders for the
aqi metric at value 520 against limit 450 is
AQI WARNING: 520 (Above 450), not the claimed aqi: 520 (>= 450). -/
theorem C9_counterexample :
    (checkStep "aqi" ⟨450, true⟩ (.num 520) ⟨false, 1⟩).1
        = some "AQI WARNING: 520 (Above 450)" ∧
    (checkStep "aqi" ⟨450, true⟩ (.num 520) ⟨false, 1⟩).1
        ≠ some "aqi: 520 (>= 450)" := by
  constructor <;> decide

/-- C9 amended: a delivered `processThresholdAlerts` call builds exactly
one alert per crossing metric and joins their lines with a comma-space
under the prefix Threshold crossed, each line reading
label: value.toFixed(1) (threshold limit); the server engine emits at
most one message per metric and only when the metric newly latches, in
the fixed per-metric format of its switch statement. -/
theorem C9_message_format :
    (∀ (app : AppSettings) (user : UserSettings) (d : SensorData)
        (nowTime : String) (nowMs : ℤ),
      (processThresholdAlerts app user d nowTime nowMs).triggered = true →
        (processThresholdAlerts app user d nowTime nowMs).message
          = some (thresholdMessage
              (processThresholdAlerts app user d nowTime nowMs).alerts)) ∧
    (∀ (user : UserSettings) (tv hv pv : ℚ),
      (computeAlerts user (some tv) (some hv) (some pv)).length =
        (if user.temp_threshold ≤ tv then 1 else 0)
          + (if user.humidity_threshold ≤ hv then 1 else 0)
          + (if pv ≤ user.pressure_threshold then 1 else 0)) ∧
    (∀ (name : String) (t : AlertThreshold) (v : JNum) (s : MetricState),
      (checkStep name t v s).1 ≠ none →
        s.alarming = false ∧ (checkStep name t v s).2 = ⟨true, 0⟩) ∧
    thresholdMessage [⟨"temperature_high", "Temperature", 30, 28⟩]
        = "Threshold crossed - Temperature: 30.0 (threshold 28)" ∧
    serverAlertMsg "aqi" true (.num 520) 450
        = some "AQI WARNING: 520 (Above 450)" := by
  refine ⟨?_, ?_, ?_, ?_, by decide⟩
  · intro app user d nowTime nowMs h
    exact (processThresholdAlerts_triggered_shape app user d nowTime nowMs h).1
  · intro user tv hv pv
    simp only [computeAlerts, tempAlerts, humidityAlerts, pressureAlerts]
    split_ifs <;> simp
  · intro name t v s h
    simp only [checkStep] at h ⊢
    split_ifs at h ⊢ <;> simp_all
  · have hf : ⌊(30 : ℚ) * 10 + 1 / 2⌋ = (300 : ℤ) := by norm_num
    have hfix : toFixed1 30 = "30.0" := by
      simp only [toFixed1, hf]
      decide
    have hline : alertLine ⟨"temperature_high", "Temperature", 30, 28⟩
        = "Temperature" ++ ": " ++ toFixed1 30 ++ " (threshold " ++ q2s 28 ++ ")" :=
      rfl
    simp only [thresholdMessage, List.map_cons, List.map_nil, hline, hfix]
    decide

/-- C9 witness: a delivered call returns the joined message over its
alerts; at value 520 a newly latching step reports a fresh latch. -/
theorem C9_witness :
    (processThresholdAlerts exampleApp userOvernight dataTemp30 "05:00" 0).message
        = some (thresholdMessage
            (processThresholdAlerts exampleApp userOvernight dataTemp30
              "05:00" 0).alerts) ∧
    (⟨false, 1⟩ : MetricState).alarming = false ∧
    (checkStep "aqi" ⟨450, true⟩ (.num 520) ⟨false, 1⟩).2 = ⟨true, 0⟩ :=
  ⟨C9_message_format.1 exampleApp userOvernight dataTemp30 "05:00" 0 (by decide),
    (C9_message_format.2.2.1 "aqi" ⟨450, true⟩ (.num 520) ⟨false, 1⟩
      (by decide)).1,
    (C9_message_format.2.2.1 "aqi" ⟨450, true⟩ (.num 520) ⟨false, 1⟩
      (by decide)).2⟩

/-- C10: with the notification_enabled setting false,
`processThresholdAlerts` returns reason notifications-disabled for every
input, before any window, threshold or cooldown evaluation and with no
state effect; and `normalizeUserSettingsRow` reads the stored cell as
enabled unless it is exactly the boolean false. -/
theorem C10_notifications_disabled :
    (∀ (app : AppSettings) (user : UserSettings) (d : SensorData)
        (nowTime : String) (nowMs : ℤ),
      user.notification_enabled = false →
        processThresholdAlerts app user d nowTime nowMs =
          { triggered := false, reason := "notifications-disabled",
            message := none, alerts := [], logged := [], webNotified := false,
            lastAlertSent := user.last_alert_sent }) ∧
    (∀ v : JBoolish, v ≠ JBoolish.jfalse → normalizeNotificationEnabled v = true) ∧
    normalizeNotificationEnabled JBoolish.jfalse = false := by
  refine ⟨?_, ?_, rfl⟩
  · intro app user d nowTime nowMs h
    simp [processThresholdAlerts, h]
  · intro v hv
    cases v <;> first | rfl | exact absurd rfl hv

/-- C10 witness: a disabled user is reported as notifications-disabled
with nothing mutated, whatever the reading and clock. -/
theorem C10_witness :
    processThresholdAlerts appHourly userDisabled dataTemp30 "10:00" 99 =
      { triggered := false, reason := "notifications-disabled", message := none,
        alerts := [], logged := [], webNotified := false,
        lastAlertSent := userDisabled.last_alert_sent } ∧
    normalizeNotificationEnabled JBoolish.jnull = true :=
  ⟨C10_notifications_disabled.1 appHourly userDisabled dataTemp30 "10:00" 99 rfl,
    C10_notifications_disabled.2.1 JBoolish.jnull (by decide)⟩
